import Mathlib

/-!
Verification of the Item Web Builder (src/src/ItemWebBuilder.jsx).

The application state and its mutating operations are shallowly embedded:
JavaScript objects become Lean structures, arrays become lists, and the
host browser's JSON/localStorage machinery is modelled at the level of
JSON document values (the host's `JSON.stringify`/`JSON.parse` pair is a
black-box external interface that is exact on JSON document values).
Numbers are modelled as rationals; user-facing alerts are modelled as an
`Option String` output component.
-/

namespace ItemWeb

/-- A node in the graph.  `x`/`y` are optional canvas coordinates
(absent until the layout engine assigns them). -/
structure Item where
  id : String
  name : String
  category : String
  x : Option Rat
  y : Option Rat
  deriving DecidableEq, Repr

/-- A directed or bidirectional labeled edge between two items. -/
structure Connection where
  id : String
  sourceId : String
  targetId : String
  relationshipType : String
  bidirectional : Bool
  deriving DecidableEq, Repr

/-- A named, colored grouping of items. -/
structure Category where
  id : String
  name : String
  color : String
  deriving DecidableEq, Repr

/-- A named, styled edge kind. -/
structure RelationshipType where
  id : String
  name : String
  color : String
  dashed : Bool
  deriving DecidableEq, Repr

/-- The aggregate application state: the `data` object of the component. -/
structure AppState where
  items : List Item
  connections : List Connection
  categories : List Category
  relationshipTypes : List RelationshipType
  deriving DecidableEq, Repr

/-- `DEFAULT_CATEGORIES` from the source. -/
def DEFAULT_CATEGORIES : List Category :=
  [ ⟨"ui", "UI", "#60a5fa"⟩,
    ⟨"mechanics", "Mechanics", "#f472b6"⟩,
    ⟨"data", "Data", "#4ade80"⟩,
    ⟨"core", "Core", "#fbbf24"⟩ ]

/-- `DEFAULT_RELATIONSHIP_TYPES` from the source. -/
def DEFAULT_RELATIONSHIP_TYPES : List RelationshipType :=
  [ ⟨"depends-on", "depends on", "#94a3b8", false⟩,
    ⟨"part-of", "part of", "#a78bfa", true⟩,
    ⟨"related-to", "related to", "#67e8f9", true⟩ ]

/-- The default AppState `loadData` falls back to. -/
def defaultState : AppState :=
  { items := [], connections := [],
    categories := DEFAULT_CATEGORIES,
    relationshipTypes := DEFAULT_RELATIONSHIP_TYPES }

/-! ## JSON document values

The persistence adapter serializes the state with `JSON.stringify` and
reads it back with `JSON.parse`.  Both are host primitives; their
composition is the identity on JSON document values, so storage is
modelled as holding the parsed document value directly. -/

/-- A JSON document value. -/
inductive Json where
  | null : Json
  | bool (b : Bool) : Json
  | num (q : Rat) : Json
  | str (s : String) : Json
  | arr (elems : List Json) : Json
  | obj (fields : List (String × Json)) : Json

/-- Field lookup on a JSON object (reading `parsed.someField`). -/
def Json.getField : Json → String → Option Json
  | .obj fields, key => fields.lookup key
  | _, _ => none

/-- Encoding of an `Item` as `JSON.stringify` lays it out; absent
coordinates produce no field at all. -/
def encodeItem (i : Item) : Json :=
  .obj ([("id", .str i.id), ("name", .str i.name), ("category", .str i.category)]
    ++ (match i.x with | some q => [("x", Json.num q)] | none => [])
    ++ (match i.y with | some q => [("y", Json.num q)] | none => []))

/-- Encoding of a `Connection`. -/
def encodeConnection (c : Connection) : Json :=
  .obj [("id", .str c.id), ("sourceId", .str c.sourceId),
        ("targetId", .str c.targetId), ("relationshipType", .str c.relationshipType),
        ("bidirectional", .bool c.bidirectional)]

/-- Encoding of a `Category`. -/
def encodeCategory (c : Category) : Json :=
  .obj [("id", .str c.id), ("name", .str c.name), ("color", .str c.color)]

/-- Encoding of a `RelationshipType`. -/
def encodeRelationshipType (r : RelationshipType) : Json :=
  .obj [("id", .str r.id), ("name", .str r.name), ("color", .str r.color),
        ("dashed", .bool r.dashed)]

/-- Encoding of the whole `AppState`, mirroring the object
`{ items, connections, categories, relationshipTypes }`. -/
def encodeState (s : AppState) : Json :=
  .obj [("items", .arr (s.items.map encodeItem)),
        ("connections", .arr (s.connections.map encodeConnection)),
        ("categories", .arr (s.categories.map encodeCategory)),
        ("relationshipTypes", .arr (s.relationshipTypes.map encodeRelationshipType))]

/-- Decode every element of a list, failing if any element fails. -/
def decodeListWith (dec : Json → Option α) : List Json → Option (List α)
  | [] => some []
  | j :: js =>
    match dec j, decodeListWith dec js with
    | some a, some as => some (a :: as)
    | _, _ => none

/-- Reading an `Item` back off a parsed JSON document. -/
def decodeItem (j : Json) : Option Item :=
  match j.getField "id", j.getField "name", j.getField "category" with
  | some (.str i), some (.str n), some (.str c) =>
    match j.getField "x", j.getField "y" with
    | some (.num qx), some (.num qy) => some ⟨i, n, c, some qx, some qy⟩
    | some (.num qx), none => some ⟨i, n, c, some qx, none⟩
    | none, some (.num qy) => some ⟨i, n, c, none, some qy⟩
    | none, none => some ⟨i, n, c, none, none⟩
    | _, _ => none
  | _, _, _ => none

/-- Reading a `Connection` back off a parsed JSON document. -/
def decodeConnection (j : Json) : Option Connection :=
  match j.getField "id", j.getField "sourceId", j.getField "targetId",
        j.getField "relationshipType", j.getField "bidirectional" with
  | some (.str i), some (.str s), some (.str t), some (.str r), some (.bool b) =>
    some ⟨i, s, t, r, b⟩
  | _, _, _, _, _ => none

/-- Reading a `Category` back off a parsed JSON document. -/
def decodeCategory (j : Json) : Option Category :=
  match j.getField "id", j.getField "name", j.getField "color" with
  | some (.str i), some (.str n), some (.str c) => some ⟨i, n, c⟩
  | _, _, _ => none

/-- Reading a `RelationshipType` back off a parsed JSON document. -/
def decodeRelationshipType (j : Json) : Option RelationshipType :=
  match j.getField "id", j.getField "name", j.getField "color",
        j.getField "dashed" with
  | some (.str i), some (.str n), some (.str c), some (.bool d) =>
    some ⟨i, n, c, d⟩
  | _, _, _, _ => none

/-- Reading a full `AppState` back off a parsed JSON document. -/
def decodeState (j : Json) : Option AppState :=
  match j.getField "items", j.getField "connections",
        j.getField "categories", j.getField "relationshipTypes" with
  | some (.arr is), some (.arr cs), some (.arr cats), some (.arr rts) =>
    match decodeListWith decodeItem is, decodeListWith decodeConnection cs,
          decodeListWith decodeCategory cats,
          decodeListWith decodeRelationshipType rts with
    | some items, some conns, some cats2, some rts2 =>
      some ⟨items, conns, cats2, rts2⟩
    | _, _, _, _ => none
  | _, _, _, _ => none

/-! ## Persistence adapter

The stored value under the key `item-web-builder-data` is modelled as
`Option (Option Json)`: `none` means the key is absent (or holds the
falsy empty string), `some none` means the stored text fails to parse as
JSON (`JSON.parse` throws), and `some (some j)` means the stored text
parses to the document `j`.  Write failures are logged by the source and
leave no stored value to read back; the model covers the successful
write the round-trip property is about. -/

/-- The stored value under `item-web-builder-data`. -/
def Store := Option (Option Json)

/-- `saveData`: serializes the state and writes it under the storage key. -/
def saveData (data : AppState) (_ : Store) : Store :=
  some (some (encodeState data))

/-- `loadData`: returns the parsed stored document verbatim, falling back
to the default AppState when the key is absent or parsing throws. -/
def loadData : Store → Json
  | some (some j) => j
  | some none => encodeState defaultState
  | none => encodeState defaultState

/-! ## Application state store operations -/

/-- The duplicate check inside `addConnection`: does a connection already
exist between the two items, in either direction? -/
def connectionExists (s : AppState) (sourceId targetId : String) : Bool :=
  s.connections.any fun c =>
    (c.sourceId == sourceId && c.targetId == targetId) ||
    (c.sourceId == targetId && c.targetId == sourceId)

/-- The pending-connection draft `{source, target}` (two items chosen by
the connection-drag gesture). -/
structure PendingConnection where
  source : Item
  target : Item
  deriving DecidableEq, Repr

/-- The component state that `addConnection` touches: the data plus the
New Connection dialog visibility flag, the pending draft, and the
connecting-from gesture state. -/
structure UIState where
  data : AppState
  showNewConnectionModal : Bool
  pendingConnection : Option PendingConnection
  connectingFrom : Option Item
  deriving DecidableEq, Repr

/-- `addConnection`: appends a new connection unless one already exists
between the two items in either direction; the early return on a
duplicate skips the dialog-state clearing below it. -/
def addConnection (ui : UIState) (newId sourceId targetId relationshipType : String)
    (bidirectional : Bool) : UIState :=
  if connectionExists ui.data sourceId targetId then ui
  else
    { data := { ui.data with
        connections := ui.data.connections ++
          [⟨newId, sourceId, targetId, relationshipType, bidirectional⟩] },
      showNewConnectionModal := false,
      pendingConnection := none,
      connectingFrom := none }

/-- The New Connection dialog's Connect action: invokes `addConnection`
on the pending draft's source and target ids with the selected type and
flag (the dialog is only rendered with a draft present). -/
def connectSubmit (ui : UIState) (newId relType : String) (bidirectional : Bool) : UIState :=
  match ui.pendingConnection with
  | some p => addConnection ui newId p.source.id p.target.id relType bidirectional
  | none => ui

/-- `deleteItem`: removes the item and every connection whose source or
target is that id. -/
def deleteItem (s : AppState) (itemId : String) : AppState :=
  { s with
    items := s.items.filter fun i => i.id != itemId,
    connections := s.connections.filter fun c =>
      c.sourceId != itemId && c.targetId != itemId }

/-- `deleteCategory`: refuses with an alert if any item references the
category, otherwise removes it.  The second component is the alert
raised, if any. -/
def deleteCategory (s : AppState) (catId : String) : AppState × Option String :=
  if s.items.any fun i => i.category == catId then
    (s, some "Cannot delete category that has items. Reassign items first.")
  else
    ({ s with categories := s.categories.filter fun c => c.id != catId }, none)

/-- A partial-fields update for a category, modelling the JS
object-spread merge of the updates into the category: absent fields
leave the old value. -/
structure CategoryUpdates where
  name : Option String := none
  color : Option String := none
  deriving DecidableEq, Repr

/-- Merge of partial fields into a category. -/
def applyCategoryUpdates (c : Category) (u : CategoryUpdates) : Category :=
  { c with name := u.name.getD c.name, color := u.color.getD c.color }

/-- `updateCategory`: merges fields into the category with the given id. -/
def updateCategory (s : AppState) (catId : String) (updates : CategoryUpdates) : AppState :=
  { s with categories := s.categories.map fun c =>
      if c.id == catId then applyCategoryUpdates c updates else c }

/-- A partial-fields update for a relationship type. -/
structure RelationshipTypeUpdates where
  name : Option String := none
  color : Option String := none
  dashed : Option Bool := none
  deriving DecidableEq, Repr

/-- Merge of partial fields into a relationship type. -/
def applyRelationshipTypeUpdates (r : RelationshipType) (u : RelationshipTypeUpdates) :
    RelationshipType :=
  { r with name := u.name.getD r.name, color := u.color.getD r.color,
           dashed := u.dashed.getD r.dashed }

/-- `updateRelationshipType`: merges fields into the relationship type
with the given id. -/
def updateRelationshipType (s : AppState) (relId : String)
    (updates : RelationshipTypeUpdates) : AppState :=
  { s with relationshipTypes := s.relationshipTypes.map fun r =>
      if r.id == relId then applyRelationshipTypeUpdates r updates else r }

/-- `importData`: the current state document together with the selected
file (`none` means no file was selected; `some none` means the file text
fails to parse as JSON; `some (some j)` means it parses to `j`).  On
success the parsed value replaces the whole state verbatim; on parse
failure an alert is raised and the state is untouched. -/
def importData (data : Json) (file : Option (Option Json)) : Json × Option String :=
  match file with
  | none => (data, none)
  | some none => (data, some "Failed to import data: Invalid JSON")
  | some (some imported) => (imported, none)

/-! ## Identifier generator

`generateId` interpolates the current timestamp and a suffix of a random
number rendered in base 36.  A random double in `[0, 1)` is modelled by
the list of fractional digits of its base-36 expansion (the expansion of
a double is finite and has no trailing zero digit; zero is the empty
list).  `Number.prototype.toString(36)` renders `0` as the single
character 0 and any other such value as 0. followed by the fraction
digits; `substr(2, 9)` then keeps at most 9 characters starting after
the leading 0. prefix. -/

/-- The character for one base-36 digit (0-9 then a-z). -/
def base36Digit (d : Fin 36) : Char :=
  if d.val < 10 then Char.ofNat (48 + d.val) else Char.ofNat (87 + d.val)

/-- The character list `Number.prototype.toString(36)` produces for a
double in `[0, 1)` given by its fractional base-36 digits. -/
def jsNumberToString36 : List (Fin 36) → List Char
  | [] => ['0']
  | d :: ds => '0' :: '.' :: (d :: ds).map base36Digit

/-- `String.prototype.substr(start, len)` on a character list. -/
def substr (s : List Char) (start len : Nat) : List Char :=
  (s.drop start).take len

/-- The random suffix of a generated id:
`Math.random().toString(36).substr(2, 9)`. -/
def generateIdSuffix (randDigits : List (Fin 36)) : List Char :=
  substr (jsNumberToString36 randDigits) 2 9

/-- `generateId`: the current timestamp, a dash, and the random suffix. -/
def generateId (now : Nat) (randDigits : List (Fin 36)) : String :=
  String.mk ((toString now).toList ++ '-' :: generateIdSuffix randDigits)

/-! ## Geometry utility

`getArrowPath` works on JavaScript doubles; it is embedded over the real
numbers.  The three SVG path strings are modelled structurally: the line
path by its start and end points, each arrowhead path by its tip and the
endpoints of its two splayed arms, and an empty path string by `none`. -/

noncomputable section

/-- JavaScript's `Math.atan2`. -/
def atan2 (y x : ℝ) : ℝ :=
  if 0 < x then Real.arctan (y / x)
  else if x < 0 then
    if 0 ≤ y then Real.arctan (y / x) + Real.pi
    else Real.arctan (y / x) - Real.pi
  else
    if 0 < y then Real.pi / 2
    else if y < 0 then -(Real.pi / 2)
    else 0

/-- The result of `getArrowPath`: the line path (start and end points),
the arrowhead path at the target end (tip, then the two arm endpoints),
and the reverse arrowhead path at the source end; `none` models the
empty path string. -/
structure ArrowGeo where
  linePath : Option ((ℝ × ℝ) × (ℝ × ℝ))
  arrowPath : Option ((ℝ × ℝ) × (ℝ × ℝ) × (ℝ × ℝ))
  reverseArrowPath : Option ((ℝ × ℝ) × (ℝ × ℝ) × (ℝ × ℝ))

/-- Euclidean distance between two points. -/
def ptDist (p q : ℝ × ℝ) : ℝ :=
  Real.sqrt ((p.1 - q.1) ^ 2 + (p.2 - q.2) ^ 2)

/-- `getArrowPath`: shortens the segment by 32 units from each end along
the unit direction and builds an open-V arrowhead of two 10-unit arms
splayed at plus/minus pi/6 from the reversed direction at the target
end, mirrored at the source end when bidirectional; coincident endpoints
yield three empty paths. -/
def getArrowPath (x1 y1 x2 y2 : ℝ) (bidirectional : Bool) : ArrowGeo :=
  let dx := x2 - x1
  let dy := y2 - y1
  let len := Real.sqrt (dx * dx + dy * dy)
  if len = 0 then ⟨none, none, none⟩ else
  let unitX := dx / len
  let unitY := dy / len
  let startX := x1 + unitX * 32
  let startY := y1 + unitY * 32
  let endX := x2 - unitX * 32
  let endY := y2 - unitY * 32
  let arrowSize : ℝ := 10
  let arrowAngle := Real.pi / 6
  let angle := atan2 (endY - startY) (endX - startX)
  let arrow1X := endX - arrowSize * Real.cos (angle - arrowAngle)
  let arrow1Y := endY - arrowSize * Real.sin (angle - arrowAngle)
  let arrow2X := endX - arrowSize * Real.cos (angle + arrowAngle)
  let arrow2Y := endY - arrowSize * Real.sin (angle + arrowAngle)
  let reverse :=
    if bidirectional then
      let revAngle := angle + Real.pi
      some ((startX, startY),
            (startX - arrowSize * Real.cos (revAngle - arrowAngle),
             startY - arrowSize * Real.sin (revAngle - arrowAngle)),
            (startX - arrowSize * Real.cos (revAngle + arrowAngle),
             startY - arrowSize * Real.sin (revAngle + arrowAngle)))
    else none
  ⟨some ((startX, startY), (endX, endY)),
   some ((endX, endY), (arrow1X, arrow1Y), (arrow2X, arrow2Y)),
   reverse⟩

end

/-! ## Concrete sample states used by witnesses and counterexamples -/

/-- A concrete UI state holding one connection A→B, used to witness C3. -/
def c3SampleUI : UIState :=
  { data := { items := [], connections := [⟨"c1", "A", "B", "depends-on", false⟩],
              categories := [], relationshipTypes := [] },
    showNewConnectionModal := false, pendingConnection := none,
    connectingFrom := none }

/-- A concrete state with one item in category ui, used to witness C5. -/
def c5SampleState : AppState :=
  { items := [⟨"i1", "Widget", "ui", none, none⟩], connections := [],
    categories := DEFAULT_CATEGORIES, relationshipTypes := DEFAULT_RELATIONSHIP_TYPES }

/-- A concrete item A used in the C9 scenario. -/
def c9ItemA : Item := ⟨"A", "Alpha", "ui", none, none⟩

/-- A concrete item B used in the C9 scenario. -/
def c9ItemB : Item := ⟨"B", "Beta", "ui", none, none⟩

/-- A concrete UI state in the middle of the New Connection dialog for
the pair (A, B), with a connection A→B already present. -/
def c9SampleUI : UIState :=
  { data := { items := [c9ItemA, c9ItemB],
              connections := [⟨"c1", "A", "B", "depends-on", false⟩],
              categories := DEFAULT_CATEGORIES,
              relationshipTypes := DEFAULT_RELATIONSHIP_TYPES },
    showNewConnectionModal := true,
    pendingConnection := some ⟨c9ItemA, c9ItemB⟩,
    connectingFrom := some c9ItemA }


end ItemWeb

open ItemWeb

/-! ## Round-trip lemmas -/

theorem decodeListWith_map_encode {α : Type} (dec : Json → Option α)
    (enc : α → Json) (h : ∀ a, dec (enc a) = some a) :
    ∀ l : List α, decodeListWith dec (l.map enc) = some l := by
  intro l
  induction l with
  | nil => rfl
  | cons a as ih => simp [decodeListWith, h a, ih]

theorem decodeItem_encodeItem (i : Item) : decodeItem (encodeItem i) = some i := by
  obtain ⟨id, name, cat, x, y⟩ := i
  cases x <;> cases y <;> rfl

theorem decodeConnection_encodeConnection (c : Connection) :
    decodeConnection (encodeConnection c) = some c := rfl

theorem decodeCategory_encodeCategory (c : Category) :
    decodeCategory (encodeCategory c) = some c := rfl

theorem decodeRelationshipType_encodeRelationshipType (r : RelationshipType) :
    decodeRelationshipType (encodeRelationshipType r) = some r := rfl

theorem decodeState_encodeState (s : AppState) :
    decodeState (encodeState s) = some s := by
  obtain ⟨items, conns, cats, rts⟩ := s
  simp [decodeState, encodeState, Json.getField, List.lookup,
    decodeListWith_map_encode decodeItem encodeItem decodeItem_encodeItem,
    decodeListWith_map_encode decodeConnection encodeConnection
      decodeConnection_encodeConnection,
    decodeListWith_map_encode decodeCategory encodeCategory
      decodeCategory_encodeCategory,
    decodeListWith_map_encode decodeRelationshipType encodeRelationshipType
      decodeRelationshipType_encodeRelationshipType]

theorem ptDist_start_offset (a b dx dy : ℝ) (h0 : dx * dx + dy * dy ≠ 0) :
    ptDist (a + dx / Real.sqrt (dx * dx + dy * dy) * 32,
            b + dy / Real.sqrt (dx * dx + dy * dy) * 32) (a, b) = 32 := by
  have hnn : (0 : ℝ) ≤ dx * dx + dy * dy :=
    add_nonneg (mul_self_nonneg dx) (mul_self_nonneg dy)
  have hpos : (0 : ℝ) < dx * dx + dy * dy := lt_of_le_of_ne hnn (Ne.symm h0)
  have hL : Real.sqrt (dx * dx + dy * dy) ≠ 0 :=
    ne_of_gt (Real.sqrt_pos.mpr hpos)
  simp only [ptDist]
  have h1 : (a + dx / Real.sqrt (dx * dx + dy * dy) * 32 - a) ^ 2 +
      (b + dy / Real.sqrt (dx * dx + dy * dy) * 32 - b) ^ 2 =
      1024 * ((dx * dx + dy * dy) / Real.sqrt (dx * dx + dy * dy) ^ 2) := by
    field_simp
    ring
  rw [h1, Real.sq_sqrt hnn, div_self h0, mul_one]
  rw [show (1024 : ℝ) = 32 ^ 2 by norm_num, Real.sqrt_sq (by norm_num)]

theorem ptDist_end_offset (a b dx dy : ℝ) (h0 : dx * dx + dy * dy ≠ 0) :
    ptDist (a - dx / Real.sqrt (dx * dx + dy * dy) * 32,
            b - dy / Real.sqrt (dx * dx + dy * dy) * 32) (a, b) = 32 := by
  have hnn : (0 : ℝ) ≤ dx * dx + dy * dy :=
    add_nonneg (mul_self_nonneg dx) (mul_self_nonneg dy)
  have hpos : (0 : ℝ) < dx * dx + dy * dy := lt_of_le_of_ne hnn (Ne.symm h0)
  have hL : Real.sqrt (dx * dx + dy * dy) ≠ 0 :=
    ne_of_gt (Real.sqrt_pos.mpr hpos)
  simp only [ptDist]
  have h1 : (a - dx / Real.sqrt (dx * dx + dy * dy) * 32 - a) ^ 2 +
      (b - dy / Real.sqrt (dx * dx + dy * dy) * 32 - b) ^ 2 =
      1024 * ((dx * dx + dy * dy) / Real.sqrt (dx * dx + dy * dy) ^ 2) := by
    field_simp
    ring
  rw [h1, Real.sq_sqrt hnn, div_self h0, mul_one]
  rw [show (1024 : ℝ) = 32 ^ 2 by norm_num, Real.sqrt_sq (by norm_num)]

theorem ptDist_arm (a b θ : ℝ) :
    ptDist (a - 10 * Real.cos θ, b - 10 * Real.sin θ) (a, b) = 10 := by
  simp only [ptDist]
  have h1 : (a - 10 * Real.cos θ - a) ^ 2 + (b - 10 * Real.sin θ - b) ^ 2 = 100 := by
    have h := Real.sin_sq_add_cos_sq θ
    nlinarith [h]
  rw [h1]
  rw [show (100 : ℝ) = 10 ^ 2 by norm_num, Real.sqrt_sq (by norm_num)]

theorem atan2_zero_pos (x : ℝ) (hx : 0 < x) : atan2 0 x = 0 := by
  simp [atan2, hx, Real.arctan_zero]

/-- C1: for every AppState `S` (any items, connections, categories, and
relationship types, including position fields), saving `S` with the
persistence adapter and then loading reproduces `S` exactly: `loadData`
after `saveData S` returns the document of a state equal to `S`, field
for field. -/
theorem c1_save_load_roundtrip (S : AppState) (store : Store) :
    decodeState (loadData (saveData S store)) = some S :=
  decodeState_encodeState S

/-- C2: for every stored value that is absent or fails to parse as JSON,
`loadData` returns the default AppState: exactly 4 categories with
distinct ids and names UI/Mechanics/Data/Core with the literal colors,
exactly 3 relationship types (depends on solid, part of dashed, related
to dashed, with their literal colors), and empty items and connections. -/
theorem c2_default_fallback (store : Store)
    (h : store = none ∨ store = some none) :
    decodeState (loadData store) = some defaultState ∧
    defaultState.categories.length = 4 ∧
    (defaultState.categories.map Category.id).Nodup ∧
    defaultState.categories.map Category.name = ["UI", "Mechanics", "Data", "Core"] ∧
    defaultState.categories.map Category.color =
      ["#60a5fa", "#f472b6", "#4ade80", "#fbbf24"] ∧
    defaultState.relationshipTypes.map (fun r => (r.name, r.color, r.dashed)) =
      [("depends on", "#94a3b8", false), ("part of", "#a78bfa", true),
       ("related to", "#67e8f9", true)] ∧
    defaultState.items = [] ∧ defaultState.connections = [] := by
  rcases h with h | h <;> subst h <;>
    exact ⟨decodeState_encodeState defaultState, by decide, by decide, by decide,
      by decide, by decide, rfl, rfl⟩

theorem c2_witness :
    ((none : Store) = none ∨ (none : Store) = some none) ∧
    decodeState (loadData (none : Store)) = some defaultState :=
  ⟨Or.inl rfl, (c2_default_fallback none (Or.inl rfl)).1⟩

/-- C3: for every state containing a connection between items A and B
(in either orientation), for every relationship-type id and
bidirectional flag and generated id, `addConnection A B` and
`addConnection B A` both leave the state unchanged (in particular no new
connection is appended). -/
theorem c3_duplicate_connection_rejected (ui : UIState) (A B t newId1 newId2 : String)
    (f : Bool)
    (h : ∃ c ∈ ui.data.connections,
      (c.sourceId = A ∧ c.targetId = B) ∨ (c.sourceId = B ∧ c.targetId = A)) :
    addConnection ui newId1 A B t f = ui ∧ addConnection ui newId2 B A t f = ui := by
  have hex : ∀ X Y : String,
      ((∃ c ∈ ui.data.connections,
        (c.sourceId = X ∧ c.targetId = Y) ∨ (c.sourceId = Y ∧ c.targetId = X))) →
      connectionExists ui.data X Y = true := by
    intro X Y hXY
    obtain ⟨c, hc, hor⟩ := hXY
    simp only [connectionExists, List.any_eq_true]
    refine ⟨c, hc, ?_⟩
    rcases hor with ⟨h1, h2⟩ | ⟨h1, h2⟩ <;> simp [h1, h2]
  have h1 : connectionExists ui.data A B = true := hex A B h
  have h2 : connectionExists ui.data B A = true := by
    refine hex B A ?_
    obtain ⟨c, hc, hor⟩ := h
    exact ⟨c, hc, hor.symm⟩
  constructor <;> simp [addConnection, h1, h2]

theorem c3_witness :
    (∃ c ∈ c3SampleUI.data.connections,
      (c.sourceId = "A" ∧ c.targetId = "B") ∨ (c.sourceId = "B" ∧ c.targetId = "A")) ∧
    (addConnection c3SampleUI "n1" "A" "B" "depends-on" true = c3SampleUI ∧
     addConnection c3SampleUI "n2" "B" "A" "depends-on" true = c3SampleUI) :=
  ⟨by decide,
   c3_duplicate_connection_rejected c3SampleUI "A" "B" "depends-on" "n1" "n2" true
     (by decide)⟩

/-- C4: for every state and item id A, `deleteItem A` removes A from the
items and removes exactly those connections whose sourceId or targetId
equals A; every other item and every connection touching neither
endpoint remains, in order, and categories and relationship types are
untouched. -/
theorem c4_cascade_delete (s : AppState) (A : String) :
    (∀ i, i ∈ (deleteItem s A).items ↔ i ∈ s.items ∧ i.id ≠ A) ∧
    (deleteItem s A).items.Sublist s.items ∧
    (∀ c, c ∈ (deleteItem s A).connections ↔
      c ∈ s.connections ∧ c.sourceId ≠ A ∧ c.targetId ≠ A) ∧
    (deleteItem s A).connections.Sublist s.connections ∧
    (deleteItem s A).categories = s.categories ∧
    (deleteItem s A).relationshipTypes = s.relationshipTypes ∧
    A ∉ (deleteItem s A).items.map Item.id := by
  refine ⟨?_, List.filter_sublist _, ?_, List.filter_sublist _, rfl, rfl, ?_⟩
  · intro i
    simp [deleteItem, List.mem_filter]
  · intro c
    simp [deleteItem, List.mem_filter, and_assoc]
  · intro hmem
    simp only [deleteItem, List.mem_map, List.mem_filter] at hmem
    obtain ⟨i, ⟨_, hid⟩, hEq⟩ := hmem
    rw [hEq] at hid
    simp at hid

/-- C5: for every state and category id C, if at least one item's
category equals C then `deleteCategory C` leaves all of AppState
unchanged and raises the literal alert; if no item references C it
removes C from the categories (leaving everything else untouched) and
raises no alert. -/
theorem c5_delete_category_guard (s : AppState) (C : String) :
    ((∃ i ∈ s.items, i.category = C) →
      deleteCategory s C =
        (s, some "Cannot delete category that has items. Reassign items first.")) ∧
    ((¬ ∃ i ∈ s.items, i.category = C) →
      (deleteCategory s C).2 = none ∧
      (deleteCategory s C).1.categories = s.categories.filter (fun c => c.id != C) ∧
      C ∉ (deleteCategory s C).1.categories.map Category.id ∧
      (deleteCategory s C).1.items = s.items ∧
      (deleteCategory s C).1.connections = s.connections ∧
      (deleteCategory s C).1.relationshipTypes = s.relationshipTypes) := by
  have key : (s.items.any fun i => i.category == C) = true ↔
      ∃ i ∈ s.items, i.category = C := by
    simp [List.any_eq_true]
  constructor
  · intro h
    simp [deleteCategory, key.mpr h]
  · intro h
    have hfalse : (s.items.any fun i => i.category == C) = false := by
      rw [Bool.eq_false_iff]
      intro hc
      exact h (key.mp hc)
    have hres : deleteCategory s C =
        ({ s with categories := s.categories.filter fun c => c.id != C }, none) := by
      simp [deleteCategory, hfalse]
    refine ⟨by rw [hres], by rw [hres], ?_, by rw [hres], by rw [hres], by rw [hres]⟩
    rw [hres]
    simp only [List.mem_map, List.mem_filter]
    rintro ⟨c, ⟨hc, hid⟩, hEq⟩
    rw [hEq] at hid
    simp at hid

theorem c5_witness :
    (∃ i ∈ c5SampleState.items, i.category = "ui") ∧
    deleteCategory c5SampleState "ui" =
      (c5SampleState, some "Cannot delete category that has items. Reassign items first.") :=
  ⟨by decide, (c5_delete_category_guard c5SampleState "ui").1 (by decide)⟩

/-- C6: for every import, a file whose text parses as JSON replaces the
entire state document verbatim (no shape validation); a file whose text
fails to parse raises the literal alert and leaves the current state
completely unchanged; selecting no file does nothing. -/
theorem c6_import_atomicity (cur : Json) (j : Json) :
    importData cur (some (some j)) = (j, none) ∧
    importData cur (some none) = (cur, some "Failed to import data: Invalid JSON") ∧
    importData cur none = (cur, none) :=
  ⟨rfl, rfl, rfl⟩

/-- C10: for every state and every id X matching no existing category
(resp. relationship type), `updateCategory X` (resp.
`updateRelationshipType X`) with any partial fields leaves the AppState
entirely unchanged. -/
theorem c10_update_unknown_id_noop (s : AppState) (X : String)
    (cu : CategoryUpdates) (ru : RelationshipTypeUpdates) :
    (X ∉ s.categories.map Category.id → updateCategory s X cu = s) ∧
    (X ∉ s.relationshipTypes.map RelationshipType.id →
      updateRelationshipType s X ru = s) := by
  constructor
  · intro h
    have hmap : (s.categories.map fun c =>
        if c.id == X then applyCategoryUpdates c cu else c) = s.categories := by
      conv_rhs => rw [← List.map_id s.categories]
      refine List.map_congr_left ?_
      intro c hc
      have hne : c.id ≠ X := fun hEq => h (List.mem_map.mpr ⟨c, hc, hEq⟩)
      simp [hne]
    show { s with categories := _ } = s
    rw [hmap]
  · intro h
    have hmap : (s.relationshipTypes.map fun r =>
        if r.id == X then applyRelationshipTypeUpdates r ru else r) =
        s.relationshipTypes := by
      conv_rhs => rw [← List.map_id s.relationshipTypes]
      refine List.map_congr_left ?_
      intro r hr
      have hne : r.id ≠ X := fun hEq => h (List.mem_map.mpr ⟨r, hr, hEq⟩)
      simp [hne]
    show { s with relationshipTypes := _ } = s
    rw [hmap]

theorem c10_witness :
    ("nope" ∉ defaultState.categories.map Category.id ∧
     updateCategory defaultState "nope" ⟨some "X", none⟩ = defaultState) ∧
    ("nope" ∉ defaultState.relationshipTypes.map RelationshipType.id ∧
     updateRelationshipType defaultState "nope" ⟨none, some "Y", some true⟩ =
       defaultState) :=
  ⟨⟨by decide,
    (c10_update_unknown_id_noop defaultState "nope" ⟨some "X", none⟩
      ⟨none, some "Y", some true⟩).1 (by decide)⟩,
   ⟨by decide,
    (c10_update_unknown_id_noop defaultState "nope" ⟨some "X", none⟩
      ⟨none, some "Y", some true⟩).2 (by decide)⟩⟩

/-- C8 counterexample: the random double 0.5 renders in base 36 as 0.i
(a single fractional digit, 18), so the generated id's random suffix is
the single character i — fewer than 9 characters, refuting the claim
that every call produces a suffix of at least 9 characters. -/
theorem c8_counterexample :
    generateId 1700000000000 [(18 : Fin 36)] = "1700000000000-i" ∧
    ¬ 9 ≤ (generateIdSuffix [(18 : Fin 36)]).length := by decide

/-- C8 (amended): every call returns the decimal timestamp, a dash, and
a random base-36 suffix of at most 9 characters — exactly 9 whenever the
random value's base-36 expansion has at least 9 fractional digits. -/
theorem c8_generate_id_amended (now : Nat) (randDigits : List (Fin 36)) :
    generateId now randDigits =
      String.mk ((toString now).toList ++ '-' :: (randDigits.map base36Digit).take 9) ∧
    (generateIdSuffix randDigits).length ≤ 9 ∧
    (9 ≤ randDigits.length → (generateIdSuffix randDigits).length = 9) := by
  have hsuffix : generateIdSuffix randDigits = (randDigits.map base36Digit).take 9 := by
    cases randDigits with
    | nil => rfl
    | cons d ds => rfl
  refine ⟨by rw [generateId, hsuffix], ?_, ?_⟩
  · rw [hsuffix, List.length_take]
    exact min_le_left _ _
  · intro h
    rw [hsuffix, List.length_take, List.length_map]
    omega

theorem c8_witness :
    9 ≤ (List.replicate 9 (0 : Fin 36)).length ∧
    (generateIdSuffix (List.replicate 9 (0 : Fin 36))).length = 9 :=
  ⟨by decide, (c8_generate_id_amended 1 (List.replicate 9 0)).2.2 (by decide)⟩

/-- C9 counterexample: pressing Connect while a duplicate connection
already exists hits the early return inside `addConnection`, so the
pending draft, the dialog visibility flag, and the connecting-from state
are all left set — refuting the claim that they are cleared regardless
of the duplicate no-op case. -/
theorem c9_counterexample :
    connectSubmit c9SampleUI "c2" "depends-on" false = c9SampleUI ∧
    (connectSubmit c9SampleUI "c2" "depends-on" false).showNewConnectionModal = true ∧
    (connectSubmit c9SampleUI "c2" "depends-on" false).pendingConnection ≠ none ∧
    (connectSubmit c9SampleUI "c2" "depends-on" false).connectingFrom ≠ none := by
  decide

/-- C9 (amended): pressing Connect with a pending draft clears the
draft, the dialog visibility flag, and the connecting-from state exactly
when no connection between the draft's endpoints exists in either
orientation (the connection is then appended); when a duplicate exists,
`addConnection` returns early and the whole component state — draft,
dialog flag, and connecting-from state included — is left unchanged. -/
theorem c9_connect_clears_state_amended (ui : UIState) (p : PendingConnection)
    (newId relType : String) (bidirectional : Bool)
    (h : ui.pendingConnection = some p) :
    (connectionExists ui.data p.source.id p.target.id = false →
      (connectSubmit ui newId relType bidirectional).showNewConnectionModal = false ∧
      (connectSubmit ui newId relType bidirectional).pendingConnection = none ∧
      (connectSubmit ui newId relType bidirectional).connectingFrom = none) ∧
    (connectionExists ui.data p.source.id p.target.id = true →
      connectSubmit ui newId relType bidirectional = ui) := by
  constructor
  · intro hfalse
    simp [connectSubmit, h, addConnection, hfalse]
  · intro htrue
    simp [connectSubmit, h, addConnection, htrue]

theorem c9_witness :
    c9SampleUI.pendingConnection = some ⟨c9ItemA, c9ItemB⟩ ∧
    connectionExists c9SampleUI.data c9ItemA.id c9ItemB.id = true ∧
    connectSubmit c9SampleUI "c3" "part-of" true = c9SampleUI :=
  ⟨rfl, by decide,
   (c9_connect_clears_state_amended c9SampleUI ⟨c9ItemA, c9ItemB⟩ "c3" "part-of" true
     rfl).2 (by decide)⟩

/-- C7: the arrow geometry returns three empty paths for coincident
endpoints; otherwise the line is shortened by exactly 32 units from each
endpoint along the unit direction and the arrowhead arms are 10 units
long, so that getArrowPath 0 0 100 0 false is the line from (32,0) to
(68,0) with the open-V arrowhead at (68,0), arms splayed plus/minus pi/6
(endpoints (68 - 5 sqrt 3, plus/minus 5)), and an empty reverse path,
while bidirectional additionally yields the mirrored arrowhead at
(32,0); getArrowPath 5 5 5 5 false yields three empty paths. -/
theorem c7_arrow_geometry :
    (∀ x y : ℝ, ∀ b : Bool, getArrowPath x y x y b = ⟨none, none, none⟩) ∧
    (∀ x1 y1 x2 y2 : ℝ, ∀ b : Bool, ¬(x1 = x2 ∧ y1 = y2) →
      ∃ s e a1 a2, (getArrowPath x1 y1 x2 y2 b).linePath = some (s, e) ∧
        (getArrowPath x1 y1 x2 y2 b).arrowPath = some (e, a1, a2) ∧
        ptDist s (x1, y1) = 32 ∧ ptDist e (x2, y2) = 32 ∧
        ptDist a1 e = 10 ∧ ptDist a2 e = 10) ∧
    getArrowPath 0 0 100 0 false =
      ⟨some ((32, 0), (68, 0)),
       some ((68, 0), (68 - 5 * Real.sqrt 3, 5), (68 - 5 * Real.sqrt 3, -5)),
       none⟩ ∧
    getArrowPath 0 0 100 0 true =
      ⟨some ((32, 0), (68, 0)),
       some ((68, 0), (68 - 5 * Real.sqrt 3, 5), (68 - 5 * Real.sqrt 3, -5)),
       some ((32, 0), (32 + 5 * Real.sqrt 3, -5), (32 + 5 * Real.sqrt 3, 5))⟩ ∧
    getArrowPath 5 5 5 5 false = ⟨none, none, none⟩ := by
  have hdeg : ∀ x y : ℝ, ∀ b : Bool, getArrowPath x y x y b = ⟨none, none, none⟩ := by
    intro x y b
    simp [getArrowPath]
  refine ⟨hdeg, ?_, ?_, ?_, hdeg 5 5 false⟩
  · intro x1 y1 x2 y2 b hne
    have hpos : (0 : ℝ) < (x2 - x1) * (x2 - x1) + (y2 - y1) * (y2 - y1) := by
      rcases not_and_or.mp hne with h | h
      · have hdx : x2 - x1 ≠ 0 := sub_ne_zero.mpr (Ne.symm h)
        nlinarith [mul_self_nonneg (y2 - y1), mul_self_pos.mpr hdx]
      · have hdy : y2 - y1 ≠ 0 := sub_ne_zero.mpr (Ne.symm h)
        nlinarith [mul_self_nonneg (x2 - x1), mul_self_pos.mpr hdy]
    have h0 : (x2 - x1) * (x2 - x1) + (y2 - y1) * (y2 - y1) ≠ 0 := ne_of_gt hpos
    have hL : Real.sqrt ((x2 - x1) * (x2 - x1) + (y2 - y1) * (y2 - y1)) ≠ 0 :=
      ne_of_gt (Real.sqrt_pos.mpr hpos)
    simp only [getArrowPath, if_neg hL]
    refine ⟨_, _, _, _, rfl, rfl, ?_, ?_, ?_, ?_⟩
    · exact ptDist_start_offset x1 y1 (x2 - x1) (y2 - y1) h0
    · exact ptDist_end_offset x2 y2 (x2 - x1) (y2 - y1) h0
    · exact ptDist_arm _ _ _
    · exact ptDist_arm _ _ _
  · have hL : Real.sqrt (((100:ℝ) - 0) * ((100:ℝ) - 0) + ((0:ℝ) - 0) * ((0:ℝ) - 0)) = 100 := by
      norm_num
      rw [show (10000:ℝ) = 100 ^ 2 by norm_num, Real.sqrt_sq (by norm_num : (0:ℝ) ≤ 100)]
    have hL0 : Real.sqrt (((100:ℝ) - 0) * ((100:ℝ) - 0) + ((0:ℝ) - 0) * ((0:ℝ) - 0)) ≠ 0 := by
      rw [hL]; norm_num
    simp only [getArrowPath]
    rw [if_neg hL0, hL]
    norm_num [ArrowGeo.mk.injEq, Prod.mk.injEq]
    rw [atan2_zero_pos 36 (by norm_num)]
    norm_num [Real.cos_sub, Real.sin_sub, Real.cos_add, Real.sin_add,
      Real.cos_zero, Real.sin_zero, Real.cos_pi_div_six, Real.sin_pi_div_six]
    ring
  · have hL : Real.sqrt (((100:ℝ) - 0) * ((100:ℝ) - 0) + ((0:ℝ) - 0) * ((0:ℝ) - 0)) = 100 := by
      norm_num
      rw [show (10000:ℝ) = 100 ^ 2 by norm_num, Real.sqrt_sq (by norm_num : (0:ℝ) ≤ 100)]
    have hL0 : Real.sqrt (((100:ℝ) - 0) * ((100:ℝ) - 0) + ((0:ℝ) - 0) * ((0:ℝ) - 0)) ≠ 0 := by
      rw [hL]; norm_num
    simp only [getArrowPath]
    rw [if_neg hL0, hL]
    norm_num [ArrowGeo.mk.injEq, Prod.mk.injEq]
    rw [atan2_zero_pos 36 (by norm_num)]
    norm_num [Real.cos_sub, Real.sin_sub, Real.cos_add, Real.sin_add,
      Real.cos_zero, Real.sin_zero, Real.cos_pi, Real.sin_pi,
      Real.cos_pi_div_six, Real.sin_pi_div_six]
    ring

theorem c7_witness :
    (¬((0:ℝ) = 100 ∧ (0:ℝ) = 0)) ∧
    (∃ s e a1 a2, (getArrowPath 0 0 100 0 false).linePath = some (s, e) ∧
      (getArrowPath 0 0 100 0 false).arrowPath = some (e, a1, a2) ∧
      ptDist s (0, 0) = 32 ∧ ptDist e (100, 0) = 32 ∧
      ptDist a1 e = 10 ∧ ptDist a2 e = 10) :=
  ⟨by norm_num, c7_arrow_geometry.2.1 0 0 100 0 false (by norm_num)⟩
